import Mathlib

/-!
Verification of the termin_checker appointment-monitoring core.

The definitions below are a shallow embedding of the Python sources:

* `src/appointment_checker.py` — the probe driver / slot extractor
  (`AppointmentChecker`): negative-phrase detection, date/time regex
  parsing and slot extraction, probe-level error classification and
  browser-session teardown.
* `src/src/services/subscription_service.py` — subscription CRUD and the
  due-check computation (`get_subscriptions_due_for_check`,
  `create_subscription`).
* `src/src/services/check_service.py` — `run_subscription_check`: the
  probe-state update persisted after each probe.
* `src/src/services/scheduler.py` — `_check_all_due_subscriptions`: the
  per-tick loop with per-subscription fault isolation.
* `src/src/services/notification_service.py` and
  `src/src/core/models.py` — notification transport and data model.

Timestamps are modelled as integers (seconds); a Python `timedelta`
comparison `now - last >= timedelta(hours=h)` becomes
`3600 * h ≤ now - last` over `Int`.
-/

namespace TerminChecker

/-- Status values of `CheckStatus` in `src/src/core/models.py` (also the
`status` strings produced by `appointment_checker.py`). -/
inductive CheckStatus where
  | success
  | no_appointments
  | appointments_found
  | error
  | timeout
  | unknown
deriving DecidableEq, Repr

/-- One extracted slot, after `AppointmentSlot` in `appointment_checker.py`. -/
structure AppointmentSlot where
  date : String
  time : String
  rawText : String
deriving DecidableEq, Repr

/-- Result of one probe, after `CheckResult` in `appointment_checker.py`
(screenshot bookkeeping omitted; `checked_at` is carried separately as an
integer timestamp where needed). -/
structure CheckResult where
  status : CheckStatus
  available : Bool
  appointments : List AppointmentSlot
  errorMessage : Option String := none
  serviceName : String := ""
  categoryName : String := ""
deriving DecidableEq, Repr

/-- A `subscriptions` row, after `Subscription` in `src/src/core/models.py`
(probe-state and settings fields used by the services; timestamps in
seconds). -/
structure Subscription where
  id : Nat
  userId : Nat
  serviceId : Nat
  active : Bool
  intervalHours : Int
  quantity : Nat
  notifyTelegram : Bool
  lastCheckedAt : Option Int
deriving DecidableEq, Repr

/-- A `checks` row, after `Check` in `src/src/core/models.py`. -/
structure Check where
  subscriptionId : Nat
  status : CheckStatus
  available : Bool
  appointmentCount : Nat
  errorMessage : Option String
  checkedAt : Int
deriving DecidableEq, Repr

/-! ## Due-check computation

`SubscriptionService.get_subscriptions_due_for_check`
(`subscription_service.py`, lines 235-266): query all rows with
`active == True`, then keep a row when `last_checked_at is None`, or when
`now - last_checked_at >= timedelta(hours=interval_hours)`. -/

/-- The per-subscription dueness test applied inside the loop of
`get_subscriptions_due_for_check`. -/
def isDue (now : Int) (sub : Subscription) : Bool :=
  match sub.lastCheckedAt with
  | none => true
  | some last => 3600 * sub.intervalHours ≤ now - last

/-- Model of `SubscriptionService.get_subscriptions_due_for_check`: filter active
subscriptions, then keep those due at `now`. -/
def get_subscriptions_due_for_check (now : Int) (subs : List Subscription) :
    List Subscription :=
  (subs.filter (fun s => s.active)).filter (isDue now)

/-! ## String helpers

Python substring and lowercasing, used by
`AppointmentChecker._detect_and_extract_appointments`:
`pattern.lower() in html.lower()`. -/

/-- Python `s.startswith(p)` on character lists. -/
def startsWithList (p s : List Char) : Bool :=
  match p, s with
  | [], _ => true
  | _ :: _, [] => false
  | a :: ps, b :: ss => a == b && startsWithList ps ss

/-- Python `p in s` (substring containment) on character lists. -/
def containsSub (p : List Char) : List Char → Bool
  | [] => startsWithList p []
  | c :: rest => startsWithList p (c :: rest) || containsSub p rest

/-- Python `str.lower()` on one character: ASCII letters, plus the German
capitals appearing in this domain. -/
def lowerChar (c : Char) : Char :=
  if c == 'Ä' then 'ä'
  else if c == 'Ö' then 'ö'
  else if c == 'Ü' then 'ü'
  else c.toLower

/-- Case-insensitive substring test `pattern.lower() in text.lower()`. -/
def containsCI (pattern text : String) : Bool :=
  containsSub (pattern.toList.map lowerChar) (text.toList.map lowerChar)

/-! ## Regex searchers

Faithful models of the two `re.search` calls in `appointment_checker.py`:

* time:  `\b(\d{1,2}:\d{2})\b`   (`_parse_datetime_from_text`, line 481)
* date:  `\b(\d{1,2})\.(\d{1,2})\.(\d{4})\b`  (`_parse_german_date`,
  line 507; also the date part of `_parse_datetime_from_text`)

`re.search` scans match positions left to right; at each position the
quantifier `\d{1,2}` is tried greedily (two digits, then one). `\b`
before the leading digit requires the previous character (if any) to be
a non-word character, and the trailing `\b` requires the next character
(if any) to be a non-word character. -/

/-- Python's `\w` word character. Python classifies all Unicode letters
as word characters; this model covers ASCII letters, digits, underscore,
and the German letters occurring in this domain. -/
def isWordChar (c : Char) : Bool :=
  c.isAlphanum || c == '_' ||
    c == 'ä' || c == 'ö' || c == 'ü' || c == 'Ä' || c == 'Ö' || c == 'Ü' ||
    c == 'ß'

/-- The candidate matches of `\d{1,2}`, greedy order: two digits first,
then one; each candidate paired with the remaining input. -/
def digitsTake12 : List Char → List (List Char × List Char)
  | a :: b :: rest =>
      if a.isDigit && b.isDigit then [([a, b], rest), ([a], b :: rest)]
      else if a.isDigit then [([a], b :: rest)]
      else []
  | [a] => if a.isDigit then [([a], [])] else []
  | [] => []

/-- Pattern `\d{2}`: exactly two digits. -/
def digitsTake2 : List Char → Option (List Char × List Char)
  | a :: b :: rest =>
      if a.isDigit && b.isDigit then some ([a, b], rest) else none
  | _ => none

/-- Pattern `\d{4}`: exactly four digits. -/
def digitsTake4 : List Char → Option (List Char × List Char)
  | a :: b :: c :: d :: rest =>
      if a.isDigit && b.isDigit && c.isDigit && d.isDigit then
        some ([a, b, c, d], rest)
      else none
  | _ => none

/-- The trailing `\b`: next character absent or non-word. -/
def boundaryAfter : List Char → Bool
  | [] => true
  | c :: _ => !isWordChar c

/-- Try `(\d{1,2}:\d{2})\b` at the current position, returning the
matched token. -/
def tryTimeAt (l : List Char) : Option (List Char) :=
  (digitsTake12 l).findSome? fun hm =>
    match hm.2 with
    | ':' :: r2 =>
        match digitsTake2 r2 with
        | some (mins, r3) =>
            if boundaryAfter r3 then some (hm.1 ++ [':'] ++ mins) else none
        | none => none
    | _ => none

/-- Try `(\d{1,2})\.(\d{1,2})\.(\d{4})\b` at the current position,
returning the three capture groups. -/
def tryDateAt (l : List Char) : Option (List Char × List Char × List Char) :=
  (digitsTake12 l).findSome? fun dm =>
    match dm.2 with
    | '.' :: r2 =>
        (digitsTake12 r2).findSome? fun mm =>
          match mm.2 with
          | '.' :: r4 =>
              match digitsTake4 r4 with
              | some (y, r5) =>
                  if boundaryAfter r5 then some (dm.1, mm.1, y) else none
              | none => none
          | _ => none
    | _ => none

/-- Left-to-right scan of `re.search`: `prev` is the character before the
current position, used for the leading `\b`. -/
def searchTime (prev : Option Char) : List Char → Option (List Char)
  | [] => none
  | c :: rest =>
      if (match prev with | none => true | some p => !isWordChar p) then
        match tryTimeAt (c :: rest) with
        | some m => some m
        | none => searchTime (some c) rest
      else searchTime (some c) rest

/-- Left-to-right scan of `re.search` for the date pattern. -/
def searchDate (prev : Option Char) :
    List Char → Option (List Char × List Char × List Char)
  | [] => none
  | c :: rest =>
      if (match prev with | none => true | some p => !isWordChar p) then
        match tryDateAt (c :: rest) with
        | some m => some m
        | none => searchDate (some c) rest
      else searchDate (some c) rest

/-! ## Extractor parsing functions -/

/-- Model of `AppointmentChecker._parse_datetime_from_text` (lines 453-486):
return the first `DD.MM.YYYY` match and the first `H:MM`/`HH:MM` match,
each verbatim as matched. -/
def parse_datetime_from_text (text : String) :
    Option String × Option String :=
  if text.isEmpty then (none, none)
  else
    ((searchDate none text.toList).map
        (fun g => (g.1 ++ ['.'] ++ g.2.1 ++ ['.'] ++ g.2.2).asString),
     (searchTime none text.toList).map List.asString)

/-- Python `s.zfill(2)`. -/
def zfill2 (s : String) : String :=
  if s.length ≥ 2 then s else if s.length = 1 then "0" ++ s else "00"

/-- Model of `AppointmentChecker._parse_german_date` (lines 488-522): find
`(\d{1,2})\.(\d{1,2})\.(\d{4})`, zero-pad day and month, emit
`YYYY-MM-DD`. -/
def parse_german_date (text : String) : Option String :=
  if text.isEmpty then none
  else
    (searchDate none text.toList).map fun g =>
      g.2.2.asString ++ "-" ++ zfill2 g.2.1.asString ++ "-" ++
        zfill2 g.1.asString

/-! ## Slot extraction and outcome classification -/

/-- A date accordion header on the terminal page: its text (an
`h3.ui-accordion-header`) and the text of the time-slot buttons in its
panel. -/
structure DateHeader where
  text : String
  buttons : List String
deriving DecidableEq, Repr

/-- The terminal page as seen by the extractor: the full HTML text and
the date accordion headers. -/
structure TerminalPage where
  html : String
  headers : List DateHeader
deriving DecidableEq, Repr

/-- The slots one header contributes in
`AppointmentChecker._extract_appointment_slots` (lines 386-440): skip the
header when its date does not parse; otherwise one slot per button whose
text contains a time token. -/
def slotsOfHeader (h : DateHeader) : List AppointmentSlot :=
  match parse_german_date h.text with
  | none => []
  | some d =>
      h.buttons.filterMap fun b =>
        match (parse_datetime_from_text b).2 with
        | some t => some { date := d, time := t, rawText := h.text ++ " " ++ b }
        | none => none

/-- Model of `AppointmentChecker._extract_appointment_slots`: all slots over all
date headers (empty when no headers are found). -/
def extract_appointment_slots (page : TerminalPage) : List AppointmentSlot :=
  page.headers.flatMap slotsOfHeader

/-- The list `AppointmentChecker.NO_APPOINTMENT_PATTERNS`. -/
def NO_APPOINTMENT_PATTERNS : List String :=
  ["Zurzeit sind keine Termine frei",
   "Zurzeit sind keine Termine verfügbar",
   "Leider sind derzeit keine Termine verfügbar",
   "Es sind zurzeit keine Termine verfügbar",
   "Aktuell sind keine Termine buchbar",
   "Keine Zeiten verfügbar",
   "keine freien Termine"]

/-- The loop over `NO_APPOINTMENT_PATTERNS`:
`pattern.lower() in html.lower()` for some pattern. -/
def hasNoAppointmentPattern (html : String) : Bool :=
  NO_APPOINTMENT_PATTERNS.any fun p => containsCI p html

/-- Model of `AppointmentChecker._detect_and_extract_appointments` (lines
301-355): the negative-phrase check runs first and short-circuits;
otherwise classify by whether any slots were extracted. -/
def detect_and_extract_appointments (page : TerminalPage)
    (service category : String) : CheckResult :=
  if hasNoAppointmentPattern page.html then
    { status := .no_appointments, available := false, appointments := [],
      serviceName := service, categoryName := category }
  else
    match extract_appointment_slots page with
    | [] =>
        { status := .unknown, available := false, appointments := [],
          errorMessage :=
            some "Could not detect appointments or confirm unavailability",
          serviceName := service, categoryName := category }
    | a :: rest =>
        { status := .appointments_found, available := true,
          appointments := a :: rest,
          serviceName := service, categoryName := category }

/-! ## Probe orchestration: `AppointmentChecker.check_appointments`

(`appointment_checker.py`, lines 97-174.) One browser session is
allocated for the attempt; `_navigate_to_service` may raise a
`PlaywrightTimeout` or another exception, either before or after the
local variable `page` is bound (`page = await browser.new_page()`, line
125). The `except` handlers evaluate `page`
(`... if page else None`, lines 147 and 160); when the failure occurred
before `page` was bound this evaluation itself raises
`UnboundLocalError`, which escapes the handler. The `finally` block
closes the browser whenever it was allocated. -/

/-- What the environment does during one probe attempt. -/
inductive NavOutcome where
  | launchRaises (msg : String)
  | newPageRaises (msg : String)
  | navTimeoutRaises (msg : String)
  | navRaises (msg : String)
  | terminal (page : TerminalPage)
deriving DecidableEq, Repr

/-- How one call of `check_appointments` exits: either a returned
`CheckResult` or a propagated exception, plus the browser-session
lifecycle facts. -/
structure ProbeExit where
  result : Except String CheckResult
  browserAllocated : Bool
  browserClosed : Bool
deriving Repr

/-- The exception raised when an `except` handler evaluates the unbound
local `page`. -/
def UNBOUND_PAGE_ERROR : String :=
  "UnboundLocalError: local variable page referenced before assignment"

/-- Model of `AppointmentChecker.check_appointments` (lines 97-174). Failures
raised after `page` is bound are returned as an error `CheckResult`;
failures raised before `page` is bound make the handler itself raise
`UnboundLocalError` (the handlers read `page` at lines 147/160). The
`finally` block closes the browser iff it was allocated. -/
def check_appointments (env : NavOutcome) (category service : String) :
    ProbeExit :=
  match env with
  | .launchRaises _ =>
      { result := .error UNBOUND_PAGE_ERROR,
        browserAllocated := false, browserClosed := false }
  | .newPageRaises _ =>
      { result := .error UNBOUND_PAGE_ERROR,
        browserAllocated := true, browserClosed := true }
  | .navTimeoutRaises msg =>
      { result := .ok
          { status := .error, available := false, appointments := [],
            errorMessage := some ("Timeout: " ++ msg),
            serviceName := service, categoryName := category },
        browserAllocated := true, browserClosed := true }
  | .navRaises msg =>
      { result := .ok
          { status := .error, available := false, appointments := [],
            errorMessage := some msg,
            serviceName := service, categoryName := category },
        browserAllocated := true, browserClosed := true }
  | .terminal page =>
      { result := .ok (detect_and_extract_appointments page service category),
        browserAllocated := true, browserClosed := true }

/-! ## Check service: `CheckService.run_subscription_check`

(`check_service.py`, lines 35-148.) Two paths:

* Main path (lines 45-126): the probe call returns a `CheckResult`; it
  is turned into a `Check` row and, in the same transaction,
  `subscription.last_checked_at = check.checked_at` — with no branch on
  the result status. `checkedAt` models
  `datetime.fromisoformat(result.checked_at)`, the completion time the
  probe stamped on its result.
* Except path (lines 128-148): when an exception escapes the `try`
  (for example the `UnboundLocalError` that `check_appointments` raises
  on a pre-`page` fault — see `NavOutcome.launchRaises`), the handler
  opens a fresh session and persists a `Check` with status ERROR,
  `appointment_count = 0`, the exception text, and
  `checked_at = datetime.now()` (the `now` argument) — but it does NOT
  touch `subscription.last_checked_at`: the first session was rolled
  back, so the subscription row is left exactly as it was. (The nested
  `try` around this fallback save returns `None` without persisting
  anything when the save itself fails; the model covers the
  save-succeeds case.)

`probe` is the outcome of the `await self.checker.check_appointments`
call: a returned `CheckResult`, or a raised exception — the same shape
as `ProbeExit.result`. -/

/-- The state update of `CheckService.run_subscription_check`: on a
returned result, build the `Check` row and advance the subscription's
`last_checked_at`; on a raised exception, persist an error `Check` via
the fallback handler and leave the subscription row unchanged. -/
def run_subscription_check (sub : Subscription)
    (probe : Except String CheckResult) (checkedAt now : Int) :
    Subscription × Check :=
  match probe with
  | .ok result =>
      let check : Check :=
        { subscriptionId := sub.id, status := result.status,
          available := result.available,
          appointmentCount := result.appointments.length,
          errorMessage := result.errorMessage, checkedAt := checkedAt }
      ({ sub with lastCheckedAt := some check.checkedAt }, check)
  | .error e =>
      (sub,
       { subscriptionId := sub.id, status := .error, available := false,
         appointmentCount := 0, errorMessage := some e, checkedAt := now })

/-! ## Scheduler tick: `SchedulerService._check_all_due_subscriptions`

(`scheduler.py`, lines 70-112.) The loop body wraps each
`run_subscription_check` call in its own `try`/`except`; a raised
exception is logged and the loop continues with the next due
subscription. `runCheck` models the call by subscription id: `Except.ok`
a persisted `Check`, or `Except.error` a raised exception. -/

/-- One scheduler tick over the due list: every due subscription is
processed; a fault yields `none` for that subscription only. -/
def check_all_due_subscriptions (due : List Subscription)
    (runCheck : Nat → Except String Check) : List (Nat × Option Check) :=
  due.map fun sub =>
    match runCheck sub.id with
    | .ok c => (sub.id, some c)
    | .error _ => (sub.id, none)

/-! ## Notification dedup gate -/

/-- Modelled from the spec: the Notification Dedup Gate of spec section
4.5 is not implemented under `src/` — `Appointment.notified`
(`models.py`, line 218) is declared but never read or written, and
`NotificationService.send_appointment_notification`
(`notification_service.py`, lines 34-119) forwards every appointment it
is given. Per the spec: forward the subset of slots whose (date, time)
pair is not yet in the NotifiedSet, then extend the NotifiedSet with the
forwarded pairs. -/
def dedupGate (notified : List (String × String))
    (slots : List AppointmentSlot) :
    List AppointmentSlot × List (String × String) :=
  let novel := slots.filter fun s => !notified.contains (s.date, s.time)
  (novel, notified ++ novel.map fun s => (s.date, s.time))

/-! ## Subscription creation: `SubscriptionService.create_subscription`

(`subscription_service.py`, lines 31-101.) Look up an existing row for
(user, service); reactivate it with the supplied settings when inactive,
return it unchanged when active, and insert a new row only when none
exists. `nextId` models the autoincrement primary key. -/

/-- Model of `SubscriptionService.create_subscription`: the rows after the call,
and the returned subscription. -/
def create_subscription (rows : List Subscription) (nextId userId serviceId : Nat)
    (intervalHours : Int) (quantity : Nat) (notifyTelegram : Bool) :
    List Subscription × Subscription :=
  match rows.find? (fun r => r.userId == userId && r.serviceId == serviceId) with
  | some existing =>
      if existing.active then (rows, existing)
      else
        let updated := { existing with
          active := true, intervalHours := intervalHours,
          quantity := quantity, notifyTelegram := notifyTelegram }
        (rows.map (fun r => if r.id == existing.id then updated else r), updated)
  | none =>
      let sub : Subscription :=
        { id := nextId, userId := userId, serviceId := serviceId,
          active := true, intervalHours := intervalHours,
          quantity := quantity, notifyTelegram := notifyTelegram,
          lastCheckedAt := none }
      (rows ++ [sub], sub)

/-! ## Sample values used by witness theorems -/

/-- A sample active subscription with a one-hour interval, last checked
at time 0. -/
def subW : Subscription :=
  { id := 1, userId := 1, serviceId := 1, active := true,
    intervalHours := 1, quantity := 1, notifyTelegram := true,
    lastCheckedAt := some 0 }

/-- A second sample subscription. -/
def subW2 : Subscription :=
  { id := 2, userId := 2, serviceId := 1, active := true,
    intervalHours := 2, quantity := 1, notifyTelegram := true,
    lastCheckedAt := none }

/-- A third sample subscription. -/
def subW3 : Subscription :=
  { id := 3, userId := 3, serviceId := 2, active := true,
    intervalHours := 1, quantity := 2, notifyTelegram := false,
    lastCheckedAt := some 100 }

/-- A sample persisted check row. -/
def checkW : Check :=
  { subscriptionId := 1, status := .no_appointments, available := false,
    appointmentCount := 0, errorMessage := none, checkedAt := 5 }

/-- A sample probe behavior for one tick: the subscription with id 2
throws during navigation, every other one persists `checkW`. -/
def probeW : Nat → Except String Check := fun n =>
  if n == 2 then Except.error "timeout during navigation" else Except.ok checkW

/-- Two sample slots from one probe. -/
def slotsW : List AppointmentSlot :=
  [{ date := "2025-11-18", time := "14:00",
     rawText := "Dienstag, 18.11.2025 14:00" },
   { date := "2025-11-18", time := "14:30",
     rawText := "Dienstag, 18.11.2025 14:30" }]

/-- A sample inactive subscription row for user 7, service 9. -/
def subInactiveW : Subscription :=
  { id := 1, userId := 7, serviceId := 9, active := false,
    intervalHours := 2, quantity := 1, notifyTelegram := false,
    lastCheckedAt := none }

/-! # Theorems -/

/-! ## Helper lemmas -/

theorem findSome?_eq_some_mem {α β : Type} {f : α → Option β} :
    ∀ {l : List α} {b : β}, l.findSome? f = some b → ∃ a ∈ l, f a = some b := by
  intro l b h
  induction l with
  | nil => simp [List.findSome?] at h
  | cons x xs ih =>
      rw [List.findSome?_cons] at h
      cases hx : f x with
      | some v =>
          simp only [hx] at h
          exact ⟨x, by simp, by rw [hx]; exact h⟩
      | none =>
          simp only [hx] at h
          obtain ⟨a, ha, hfa⟩ := ih h
          exact ⟨a, by simp [ha], hfa⟩

theorem digitsTake12_shape {l : List Char} {p : List Char × List Char}
    (h : p ∈ digitsTake12 l) : p.1.length = 1 ∨ p.1.length = 2 := by
  obtain ⟨d, r⟩ := p
  simp only
  match l with
  | [] => simp [digitsTake12] at h
  | [a] =>
      simp only [digitsTake12] at h
      split at h <;> simp at h
      obtain ⟨h1, h2⟩ := h
      subst h1; simp
  | a :: b :: rest =>
      simp only [digitsTake12] at h
      split at h
      · simp at h
        rcases h with ⟨h1, _⟩ | ⟨h1, _⟩ <;> (subst h1; simp)
      · split at h
        · simp at h
          obtain ⟨h1, _⟩ := h
          subst h1; simp
        · simp at h

theorem digitsTake4_shape {l : List Char} {p : List Char × List Char}
    (h : digitsTake4 l = some p) : p.1.length = 4 := by
  obtain ⟨y, r⟩ := p
  simp only
  match l with
  | [] => simp [digitsTake4] at h
  | [a] => simp [digitsTake4] at h
  | [a, b] => simp [digitsTake4] at h
  | [a, b, c] => simp [digitsTake4] at h
  | a :: b :: c :: d :: rest =>
      simp only [digitsTake4] at h
      split at h
      · simp at h
        obtain ⟨h1, _⟩ := h
        subst h1; simp
      · simp at h

theorem tryDateAt_groups {l : List Char} {d m y : List Char}
    (h : tryDateAt l = some (d, m, y)) :
    (d.length = 1 ∨ d.length = 2) ∧ (m.length = 1 ∨ m.length = 2) ∧
      y.length = 4 := by
  unfold tryDateAt at h
  obtain ⟨dm, hdm, h1⟩ := findSome?_eq_some_mem h
  split at h1
  case h_2 => cases h1
  obtain ⟨mm, hmm, h2⟩ := findSome?_eq_some_mem h1
  split at h2
  case h_2 => cases h2
  split at h2
  case h_2 => cases h2
  rename_i y4 r5 h4
  split at h2
  case isFalse => cases h2
  injection h2 with h2
  cases h2
  exact ⟨digitsTake12_shape hdm, digitsTake12_shape hmm,
    digitsTake4_shape h4⟩

theorem searchDate_finds {l : List Char} :
    ∀ {prev : Option Char} {g : List Char × List Char × List Char},
      searchDate prev l = some g → ∃ l', tryDateAt l' = some g := by
  induction l with
  | nil => intro prev g h; simp [searchDate] at h
  | cons c rest ih =>
      intro prev g h
      unfold searchDate at h
      split at h
      · split at h
        · rename_i m hm
          exact ⟨c :: rest, by rw [hm]; exact h⟩
        · exact ih h
      · exact ih h

theorem zfill2_length {s : String} (h : s.length = 1 ∨ s.length = 2) :
    (zfill2 s).length = 2 := by
  unfold zfill2
  rcases h with h | h
  · rw [if_neg (by omega), if_pos h, String.length_append, h]
    rfl
  · rw [if_pos (by omega)]
    exact h

theorem asString_length (l : List Char) : (List.asString l).length = l.length :=
  rfl

theorem parse_german_date_length {t iso : String}
    (h : parse_german_date t = some iso) : iso.length = 10 := by
  unfold parse_german_date at h
  split at h
  · cases h
  · obtain ⟨g, hg, hiso⟩ := Option.map_eq_some.mp h
    obtain ⟨l', hl'⟩ := searchDate_finds hg
    obtain ⟨hd, hm, hy⟩ := tryDateAt_groups hl'
    subst hiso
    rw [String.length_append, String.length_append, String.length_append,
      String.length_append]
    rw [asString_length, zfill2_length (by rw [asString_length] at *; exact hm),
      zfill2_length (by rw [asString_length] at *; exact hd)]
    simp [hy]
    rfl

theorem date_parsing_normalizes_and_skips :
    parse_german_date "Dienstag, 18.11.2025" = some "2025-11-18" ∧
    parse_german_date "5.3.2026" = some "2026-03-05" ∧
    (∀ (t iso : String), parse_german_date t = some iso → iso.length = 10) ∧
    (∀ (html : String) (hs : List DateHeader) (hd : DateHeader),
        parse_german_date hd.text = none →
        extract_appointment_slots ⟨html, hs ++ [hd]⟩ =
          extract_appointment_slots ⟨html, hs⟩) := by
  refine ⟨by decide, by decide, fun t iso h => parse_german_date_length h, ?_⟩
  intro html hs hd hnone
  unfold extract_appointment_slots
  have hempty : slotsOfHeader hd = [] := by
    unfold slotsOfHeader
    rw [hnone]
  simp [hempty]

theorem date_parsing_normalizes_and_skips_witness :
    "2025-11-18".length = 10 ∧
    extract_appointment_slots
        ⟨"page", [{ text := "Dienstag, 18.11.2025", buttons := ["14:30"] }] ++
          [{ text := "keine Daten", buttons := ["10:00"] }]⟩ =
      extract_appointment_slots
        ⟨"page", [{ text := "Dienstag, 18.11.2025", buttons := ["14:30"] }]⟩ :=
  ⟨date_parsing_normalizes_and_skips.2.2.1 "Dienstag, 18.11.2025" "2025-11-18"
      (by decide),
   date_parsing_normalizes_and_skips.2.2.2 "page"
      [{ text := "Dienstag, 18.11.2025", buttons := ["14:30"] }]
      { text := "keine Daten", buttons := ["10:00"] } (by decide)⟩

theorem dedup_gate_parts :
    ∀ (notified : List (String × String)) (slots : List AppointmentSlot),
      (∀ s : AppointmentSlot, s ∈ (dedupGate notified slots).1 ↔
          s ∈ slots ∧ (s.date, s.time) ∉ notified) := by
  intro notified slots s
  simp [dedupGate, List.mem_filter, List.elem_iff]

theorem dedup_gate_rerun_empty :
    ∀ (notified : List (String × String)) (slots : List AppointmentSlot),
      (dedupGate (dedupGate notified slots).2 slots).1 = [] := by
  intro notified slots
  apply List.filter_eq_nil_iff.mpr
  intro s hs
  simp only [Bool.not_eq_true]
  rw [Bool.not_eq_false']
  apply List.elem_iff.mpr
  by_cases hmem : (s.date, s.time) ∈ notified
  · exact List.mem_append_left _ hmem
  · refine List.mem_append_right _ ?_
    refine List.mem_map.mpr ⟨s, ?_, rfl⟩
    refine List.mem_filter.mpr ⟨hs, ?_⟩
    simp [List.elem_iff, hmem]

theorem dedup_gate_extend_stable :
    ∀ (notified : List (String × String)) (slots : List AppointmentSlot),
      (dedupGate (dedupGate notified slots).2 slots).2 =
        (dedupGate notified slots).2 := by
  intro notified slots
  have h := dedup_gate_rerun_empty notified slots
  unfold dedupGate at h ⊢
  simp only at h ⊢
  rw [h]
  simp

theorem dedup_gate_nodup :
    ∀ (notified : List (String × String)) (slots : List AppointmentSlot),
      notified.Nodup → (slots.map fun s => (s.date, s.time)).Nodup →
      (dedupGate notified slots).2.Nodup := by
  intro notified slots hn hs
  unfold dedupGate
  simp only
  rw [List.nodup_append]
  refine ⟨hn, ?_, ?_⟩
  · exact ((List.filter_sublist slots).map _).nodup hs
  · intro x hx hx2
    obtain ⟨s, hsf, rfl⟩ := List.mem_map.mp hx2
    have hni := (List.mem_filter.mp hsf).2
    simp [List.elem_iff] at hni
    exact hni hx

theorem countP_map_eq {α : Type} {f : α → α} {p : α → Bool} :
    ∀ {l : List α}, (∀ a ∈ l, p (f a) = p a) →
      (l.map f).countP p = l.countP p := by
  intro l h
  induction l with
  | nil => rfl
  | cons x xs ih =>
      simp only [List.map_cons, List.countP_cons]
      rw [ih (fun a ha => h a (by simp [ha])), h x (by simp)]

theorem create_subscription_unique_per_pair :
    ∀ (rows : List Subscription) (nextId userId serviceId : Nat)
      (intervalHours : Int) (quantity : Nat) (notifyTelegram : Bool)
      (res : List Subscription × Subscription),
      res = create_subscription rows nextId userId serviceId intervalHours
              quantity notifyTelegram →
      (∀ existing,
          rows.find?
              (fun r => r.userId == userId && r.serviceId == serviceId) =
            some existing →
          res.1.length = rows.length ∧
          (existing.active = true → res = (rows, existing)) ∧
          (existing.active = false →
            res.2.active = true ∧ res.2.intervalHours = intervalHours ∧
            res.2.quantity = quantity ∧
            res.2.notifyTelegram = notifyTelegram ∧
            res.2.userId = existing.userId ∧
            res.2.serviceId = existing.serviceId)) ∧
      ((rows.map fun r => r.id).Nodup →
        ∀ u s : Nat,
          rows.countP (fun r => r.userId == u && r.serviceId == s) ≤ 1 →
          res.1.countP (fun r => r.userId == u && r.serviceId == s) ≤ 1) := by
  intro rows nextId userId serviceId ivh q nt res hres
  subst hres
  constructor
  · intro existing hfind
    unfold create_subscription
    simp only [hfind]
    refine ⟨?_, ?_, ?_⟩
    · split
      · rfl
      · simp
    · intro hact
      rw [if_pos hact]
    · intro hact
      rw [if_neg (by simp [hact])]
      exact ⟨rfl, rfl, rfl, rfl, rfl, rfl⟩
  · intro hids u s hcount
    unfold create_subscription
    cases hfind : rows.find?
        (fun r => r.userId == userId && r.serviceId == serviceId) with
    | some existing =>
        show List.countP
            (fun r : Subscription => r.userId == u && r.serviceId == s)
            ((if existing.active = true then (rows, existing)
              else
                (List.map
                  (fun r : Subscription =>
                    if (r.id == existing.id) = true then
                      { existing with
                        active := true, intervalHours := ivh,
                        quantity := q, notifyTelegram := nt }
                    else r) rows,
                 { existing with
                   active := true, intervalHours := ivh,
                   quantity := q, notifyTelegram := nt })).1) ≤ 1
        split
        · exact hcount
        · have hexmem := List.mem_of_find?_eq_some hfind
          have hinj := List.inj_on_of_nodup_map hids
          have hpp : ∀ r ∈ rows,
              (fun r : Subscription => r.userId == u && r.serviceId == s)
                  ((fun r : Subscription =>
                    if (r.id == existing.id) = true then
                      { existing with
                        active := true, intervalHours := ivh,
                        quantity := q, notifyTelegram := nt }
                    else r) r) =
                (fun r : Subscription => r.userId == u && r.serviceId == s)
                  r := by
            intro r hr
            simp only
            by_cases hid : (r.id == existing.id) = true
            · have hre : r = existing := hinj hr hexmem (eq_of_beq hid)
              subst hre
              rw [if_pos hid]
            · rw [if_neg hid]
          have hmap := @countP_map_eq Subscription
            (fun r : Subscription =>
              if (r.id == existing.id) = true then
                { existing with
                  active := true, intervalHours := ivh,
                  quantity := q, notifyTelegram := nt }
              else r)
            (fun r : Subscription => r.userId == u && r.serviceId == s)
            rows hpp
          simp only at hmap
          rw [hmap]
          exact hcount
    | none =>
        show List.countP
            (fun r : Subscription => r.userId == u && r.serviceId == s)
            (rows ++
              [{ id := nextId, userId := userId, serviceId := serviceId,
                 active := true, intervalHours := ivh, quantity := q,
                 notifyTelegram := nt, lastCheckedAt := none }]) ≤ 1
        rw [List.countP_append]
        by_cases hmatch : (userId == u && serviceId == s) = true
        · have hu : userId = u := eq_of_beq (Bool.and_eq_true_iff.mp hmatch).1
          have hs2 : serviceId = s :=
            eq_of_beq (Bool.and_eq_true_iff.mp hmatch).2
          subst hu
          subst hs2
          have h0 : rows.countP
              (fun r => r.userId == userId && r.serviceId == serviceId) = 0 := by
            apply List.countP_eq_zero.mpr
            intro a ha
            exact List.find?_eq_none.mp hfind a ha
          rw [h0]
          simp [List.countP_cons]
        · have h1 : List.countP
              (fun r : Subscription => r.userId == u && r.serviceId == s)
              [{ id := nextId, userId := userId, serviceId := serviceId,
                 active := true, intervalHours := ivh, quantity := q,
                 notifyTelegram := nt, lastCheckedAt := none }] = 0 := by
            simp only [List.countP_cons, List.countP_nil]
            simp [hmatch]
          rw [h1]
          simpa using hcount


/-- Claim C1: a subscription is selected as due by
`get_subscriptions_due_for_check` iff it is active and either
`last_checked_at` is null or `now - last_checked_at >= interval`; at the
exact interval boundary it is due, one unit (second) below it is not. -/
theorem due_selection_iff_interval_elapsed :
    (∀ (now : Int) (subs : List Subscription) (sub : Subscription),
        sub ∈ get_subscriptions_due_for_check now subs ↔
          sub ∈ subs ∧ sub.active = true ∧
            (sub.lastCheckedAt = none ∨
              ∃ last, sub.lastCheckedAt = some last ∧
                3600 * sub.intervalHours ≤ now - last)) ∧
    (∀ (sub : Subscription) (last : Int),
        sub.active = true → sub.lastCheckedAt = some last →
        sub ∈ get_subscriptions_due_for_check
            (last + 3600 * sub.intervalHours) [sub] ∧
        sub ∉ get_subscriptions_due_for_check
            (last + 3600 * sub.intervalHours - 1) [sub]) := by
  have hmem : ∀ (now : Int) (subs : List Subscription) (sub : Subscription),
      sub ∈ get_subscriptions_due_for_check now subs ↔
        sub ∈ subs ∧ sub.active = true ∧
          (sub.lastCheckedAt = none ∨
            ∃ last, sub.lastCheckedAt = some last ∧
              3600 * sub.intervalHours ≤ now - last) := by
    intro now subs sub
    unfold get_subscriptions_due_for_check isDue
    rw [List.mem_filter, List.mem_filter]
    cases h : sub.lastCheckedAt with
    | none => simp [h, and_assoc]
    | some t => simp [h, and_assoc]
  refine ⟨hmem, ?_⟩
  intro sub last hact hlast
  constructor
  · exact (hmem _ _ _).mpr ⟨by simp, hact, Or.inr ⟨last, hlast, by omega⟩⟩
  · intro hdue
    rcases ((hmem _ _ _).mp hdue).2.2 with h | ⟨l, hl, hle⟩
    · rw [hlast] at h; cases h
    · rw [hlast] at hl
      cases hl
      omega

/-- Witness for C1: the sample subscription (interval one hour, last
checked at 0) is due at exactly 3600 seconds and not due at 3599. -/
theorem due_selection_iff_interval_elapsed_witness :
    subW ∈ get_subscriptions_due_for_check
        (0 + 3600 * subW.intervalHours) [subW] ∧
    subW ∉ get_subscriptions_due_for_check
        (0 + 3600 * subW.intervalHours - 1) [subW] :=
  due_selection_iff_interval_elapsed.2 subW 0 rfl rfl

/-- Claim C2: when the terminal page text contains a configured
negative phrase (case-insensitive substring), the extractor returns the
no-appointments outcome with an empty slot list, whatever the date
headers on the page; structural parsing is not consulted. -/
theorem negative_phrase_forces_no_slots :
    ∀ (page : TerminalPage) (service category : String),
      hasNoAppointmentPattern page.html = true →
        detect_and_extract_appointments page service category =
          { status := .no_appointments, available := false,
            appointments := [], serviceName := service,
            categoryName := category } := by
  intro page s c h
  unfold detect_and_extract_appointments
  simp [h]

/-- Witness for C2: the page text "Zurzeit sind keine Termine frei"
with a stray structural header "Montag, 01.01.2030" still yields the
no-appointments outcome. -/
theorem negative_phrase_forces_no_slots_witness :
    detect_and_extract_appointments
        { html := "Zurzeit sind keine Termine frei",
          headers := [{ text := "Montag, 01.01.2030", buttons := ["10:00"] }] }
        "svc" "cat" =
      { status := .no_appointments, available := false, appointments := [],
        serviceName := "svc", categoryName := "cat" } :=
  negative_phrase_forces_no_slots _ "svc" "cat" (by decide)

/-- Claim C6: with no negative-phrase match and zero date headers the
extractor returns the unknown (Indeterminate) status, which is a
distinct outcome kind from no-appointments. -/
theorem unrecognized_structure_yields_unknown :
    (∀ (page : TerminalPage) (service category : String),
        hasNoAppointmentPattern page.html = false → page.headers = [] →
          (detect_and_extract_appointments page service category).status =
            CheckStatus.unknown) ∧
    CheckStatus.unknown ≠ CheckStatus.no_appointments := by
  constructor
  · intro page s c hneg hhead
    unfold detect_and_extract_appointments extract_appointment_slots
    rw [hhead]
    simp [hneg]
  · intro h
    cases h

/-- Witness for C6: a page with unrecognized text and no headers is
classified unknown. -/
theorem unrecognized_structure_yields_unknown_witness :
    (detect_and_extract_appointments
        { html := "Hello World", headers := [] } "svc" "cat").status =
      CheckStatus.unknown :=
  unrecognized_structure_yields_unknown.1 _ "svc" "cat" (by decide) rfl

/-- Counterexample to claim C4 as stated: the time parser returns the
matched token verbatim, so a single-digit hour is not zero-padded —
"9:05" parses to "9:05", not "09:05". -/
theorem time_token_not_zero_padded :
    (parse_datetime_from_text "9:05").2 = some "9:05" ∧
    (parse_datetime_from_text "9:05").2 ≠ some "09:05" := by
  constructor
  · decide
  · decide

/-- Claim C4 as amended: a text containing an `H:MM` or `HH:MM` token
yields the matched time token verbatim (single-digit hours are not
zero-padded), and a control whose text lacks such a token is skipped
with no slot emitted. -/
theorem time_parsing_verbatim_and_skip :
    (parse_datetime_from_text "14:30 Uhr").2 = some "14:30" ∧
    (parse_datetime_from_text "9:05").2 = some "9:05" ∧
    ∀ (d : String) (bs : List String) (b : String),
      (parse_datetime_from_text b).2 = none →
      slotsOfHeader { text := d, buttons := bs ++ [b] } =
        slotsOfHeader { text := d, buttons := bs } := by
  refine ⟨by decide, by decide, ?_⟩
  intro d bs b hb
  unfold slotsOfHeader
  cases hd : parse_german_date d with
  | none => rfl
  | some pd => simp [List.filterMap_append, hb]

/-- Witness for C4 (amended): appending a control without a time token
("Uhr") emits no extra slot. -/
theorem time_parsing_verbatim_and_skip_witness :
    slotsOfHeader { text := "5.3.2026", buttons := ["14:30"] ++ ["Uhr"] } =
      slotsOfHeader { text := "5.3.2026", buttons := ["14:30"] } :=
  time_parsing_verbatim_and_skip.2.2 "5.3.2026" ["14:30"] "Uhr" (by decide)

/-- Claim C7: one scheduler tick processes every due subscription; a
fault while probing one subscription is caught there and every other
due subscription still completes and records its outcome. -/
theorem tick_isolates_faults :
    ∀ (due : List Subscription) (runCheck : Nat → Except String Check),
      (check_all_due_subscriptions due runCheck).length = due.length ∧
      ∀ sub ∈ due, ∀ c, runCheck sub.id = .ok c →
        (sub.id, some c) ∈ check_all_due_subscriptions due runCheck := by
  intro due runCheck
  constructor
  · simp [check_all_due_subscriptions]
  · intro sub hmem c hok
    unfold check_all_due_subscriptions
    refine List.mem_map.mpr ⟨sub, hmem, ?_⟩
    rw [hok]

/-- Witness for C7: with three due subscriptions where the second one
throws during navigation, the tick still runs all three and the first
and third persist their checks. -/
theorem tick_isolates_faults_witness :
    (check_all_due_subscriptions [subW, subW2, subW3] probeW).length = 3 ∧
    (subW.id, some checkW) ∈
      check_all_due_subscriptions [subW, subW2, subW3] probeW ∧
    (subW3.id, some checkW) ∈
      check_all_due_subscriptions [subW, subW2, subW3] probeW :=
  ⟨(tick_isolates_faults [subW, subW2, subW3] probeW).1,
   (tick_isolates_faults [subW, subW2, subW3] probeW).2 subW (by simp)
     checkW rfl,
   (tick_isolates_faults [subW, subW2, subW3] probeW).2 subW3 (by simp)
     checkW rfl⟩

/-- Claim C3 at the failing input: on the main path `last_checked_at`
advances to the result's completion time for every outcome status, but
on the except path (reached when the probe raises, e.g. the
`UnboundLocalError` escape of `check_appointments`) an error `Check` is
persisted while the subscription row — including `last_checked_at` — is
left unchanged. Concretely: the sample subscription (interval one hour,
last checked at 0) suffers the escaping fault at time 7000; the error
check is persisted with `checked_at = 7000`, `last_checked_at` stays 0,
and the subscription is still due at time 7200 — whereas with the
claimed advance to 7000 it would not be due. -/
theorem failed_probe_skips_last_checked_update :
    (∀ (sub : Subscription) (result : CheckResult) (t now : Int),
        (run_subscription_check sub (.ok result) t now).1.lastCheckedAt =
          some t ∧
        (run_subscription_check sub (.ok result) t now).2.status =
          result.status) ∧
    (∀ (sub : Subscription) (e : String) (t now : Int),
        (run_subscription_check sub (.error e) t now).1 = sub ∧
        (run_subscription_check sub (.error e) t now).2.status =
          CheckStatus.error ∧
        (run_subscription_check sub (.error e) t now).2.checkedAt = now) ∧
    (run_subscription_check subW (.error UNBOUND_PAGE_ERROR)
        7000 7000).2.status = CheckStatus.error ∧
    (run_subscription_check subW (.error UNBOUND_PAGE_ERROR)
        7000 7000).1.lastCheckedAt = some 0 ∧
    isDue 7200 (run_subscription_check subW (.error UNBOUND_PAGE_ERROR)
        7000 7000).1 = true ∧
    isDue 7200 { subW with lastCheckedAt := some 7000 } = false := by
  refine ⟨fun sub result t now => ⟨rfl, rfl⟩,
    fun sub e t now => ⟨rfl, rfl, rfl⟩, rfl, rfl, by decide, by decide⟩

/-- Claim C8 at the failing input: a failure raised before the local
`page` is bound (browser launch fails) makes the handler itself raise
`UnboundLocalError`, which escapes `check_appointments` instead of
being returned as an error `CheckResult`; the browser session is still
torn down exactly when it was allocated, and failures raised after
`page` is bound are returned as an error result. -/
theorem probe_teardown_and_early_fault_escapes :
    (∀ (env : NavOutcome) (category service : String),
        (check_appointments env category service).browserClosed =
          (check_appointments env category service).browserAllocated) ∧
    (∀ (msg category service : String),
        (check_appointments (.navTimeoutRaises msg) category service).result =
          .ok { status := .error, available := false, appointments := [],
                errorMessage := some ("Timeout: " ++ msg),
                serviceName := service, categoryName := category }) ∧
    (check_appointments (.launchRaises "Browser executable missing")
        "cat" "svc").result = .error UNBOUND_PAGE_ERROR := by
  refine ⟨?_, fun msg c s => rfl, rfl⟩
  intro env c s
  cases env <;> rfl

/-- Claim C5: the dedup gate forwards exactly the slots whose
(date, time) pair is not yet in the NotifiedSet; re-running it on the
extended set forwards nothing and leaves the set unchanged, and the set
never acquires duplicate entries. -/
theorem dedup_gate_novel_only_and_idempotent :
    ∀ (notified : List (String × String)) (slots : List AppointmentSlot),
      (∀ s : AppointmentSlot, s ∈ (dedupGate notified slots).1 ↔
          s ∈ slots ∧ (s.date, s.time) ∉ notified) ∧
      (dedupGate (dedupGate notified slots).2 slots).1 = [] ∧
      (dedupGate (dedupGate notified slots).2 slots).2 =
        (dedupGate notified slots).2 ∧
      (notified.Nodup →
        (slots.map fun s => (s.date, s.time)).Nodup →
        (dedupGate notified slots).2.Nodup) :=
  fun notified slots =>
    ⟨dedup_gate_parts notified slots, dedup_gate_rerun_empty notified slots,
     dedup_gate_extend_stable notified slots, dedup_gate_nodup notified slots⟩

/-- Witness for C5: with one of the two sample slots already notified,
the extended NotifiedSet has no duplicate entries. -/
theorem dedup_gate_novel_only_and_idempotent_witness :
    (dedupGate [("2025-11-18", "14:00")] slotsW).2.Nodup :=
  (dedup_gate_novel_only_and_idempotent
      [("2025-11-18", "14:00")] slotsW).2.2.2 (by decide) (by decide)

/-- Witness for C10: creating a subscription for user 7, service 9 when
an inactive row exists reactivates that row with the new settings,
inserts no second row, and keeps at most one row per (user, service). -/
theorem create_subscription_unique_per_pair_witness :
    (create_subscription [subInactiveW] 2 7 9 5 3 true).1.length = 1 ∧
    (create_subscription [subInactiveW] 2 7 9 5 3 true).2.active = true ∧
    (create_subscription [subInactiveW] 2 7 9 5 3 true).2.intervalHours = 5 ∧
    (create_subscription [subInactiveW] 2 7 9 5 3 true).1.countP
        (fun r => r.userId == 7 && r.serviceId == 9) ≤ 1 := by
  have h := create_subscription_unique_per_pair [subInactiveW] 2 7 9 5 3 true
    _ rfl
  have h1 := h.1 subInactiveW (by decide)
  exact ⟨h1.1, (h1.2.2 rfl).1, (h1.2.2 rfl).2.1,
    h.2 (by decide) 7 9 (by decide)⟩

end TerminChecker
